import Mathlib

/-!
# Verification of the s7client protocol stack

Shallow embedding of the s7client Rust library (Siemens S7 PLC client):
the byte codec for the wire segments, the request planner that splits and
validates read/write accesses against the negotiated PDU length, the COTP
fragment-reassembly loop, the session state transitions on errors, and the
connection-pool recycle step.  Bytes are modelled as `Nat` (values < 256),
buffers as `List Nat`; machine-integer wraparound is explicit (`% 2^32`
where the Rust code works in `u32`).  Fallible Rust code returns
`Except`/dedicated outcome types; a Rust panic is a distinguished outcome
constructor.
-/

namespace S7

/-! ## Errors (src/errors.rs) -/

/-- ISO-level error, from `IsoError` in src/errors.rs. -/
inductive IsoError where
  | invalidPDU
  | invalidDataSize
  | shortPacket
deriving DecidableEq, Repr

/-- Per-item error inside an S7 response, from `S7DataItemResponseError`. -/
inductive S7DataItemResponseError where
  | reserved
  | hardwareFault
  | accessNotAllowed
  | addressOutOfRange
  | dataTypeNotSupported
  | dataTypeInconsistent
  | objectDoesNotExist
  | unknown
deriving DecidableEq, Repr

/-- `impl From<u8> for S7DataItemResponseError` in src/errors.rs. -/
def S7DataItemResponseError.fromCode (code : Nat) : S7DataItemResponseError :=
  match code with
  | 0x00 => .reserved
  | 0x01 => .hardwareFault
  | 0x03 => .accessNotAllowed
  | 0x05 => .addressOutOfRange
  | 0x06 => .dataTypeNotSupported
  | 0x07 => .dataTypeInconsistent
  | 0x0a => .objectDoesNotExist
  | _ => .unknown

/-- The public error enum of the crate (src/errors.rs), with payloads kept
where a claim mentions them.  The `io` payload abstracts the
`std::io::ErrorKind` as a numeric tag. -/
inductive Error where
  | io (kind : Nat)
  | pool (reason : String)
  | connection (reason : String)
  | dataExchangeTimedOut
  | tryFrom (bytes : List Nat) (reason : String)
  | isoResponse (e : IsoError)
  | requestedBitOutOfRange
  | requestNotAcknowledged
  | s7ProtocolError (cls code : Option Nat)
  | dataItemError (e : S7DataItemResponseError)
  | responseDoesNotBelongToCurrentPDU
  | tooManyItemsInOneRequest
  | dataItemTooLarge
  | tooMuchDataToWrite
  | responseDataWouldBeTooLarge (req_size max_pdu : Nat)
  | invalidTriggerCollection
deriving DecidableEq, Repr

/-- `Error::is_connection_error` in src/errors.rs: transport-level errors. -/
def Error.is_connection_error : Error → Bool
  | .io _ => true
  | .connection _ => true
  | .dataExchangeTimedOut => true
  | .isoResponse _ => true
  | _ => false

/-! ## Wire types (src/s7_protocol/types.rs) -/

/-- Memory areas, `enum Area` in src/s7_protocol/types.rs. -/
inductive Area where
  | processInput
  | processOutput
  | merker
  | dataBlock
  | counter
  | timer
deriving DecidableEq, Repr

/-- The discriminant value of each `Area` variant. -/
def Area.code : Area → Nat
  | .processInput => 0x81
  | .processOutput => 0x82
  | .merker => 0x83
  | .dataBlock => 0x84
  | .counter => 0x1C
  | .timer => 0x1D

/-- `enum S7DataTypes` in src/s7_protocol/types.rs. -/
inductive S7DataTypes where
  | s7bit
  | s7byte
  | s7char
  | s7word
  | s7int
  | s7dword
  | s7dint
  | s7real
  | s7counter
  | s7timer
deriving DecidableEq, Repr

/-- The discriminant value of each `S7DataTypes` variant. -/
def S7DataTypes.code : S7DataTypes → Nat
  | .s7bit => 0x01
  | .s7byte => 0x02
  | .s7char => 0x03
  | .s7word => 0x04
  | .s7int => 0x05
  | .s7dword => 0x06
  | .s7dint => 0x07
  | .s7real => 0x08
  | .s7counter => 0x1C
  | .s7timer => 0x1D

/-- `enum DataItemTransportSize` in src/s7_protocol/types.rs. -/
inductive DataItemTransportSize where
  | null
  | bit
  | byte
  | integer
  | real
  | octetString
deriving DecidableEq, Repr

/-- `impl From<u8> for DataItemTransportSize`: unrecognised codes map to `Null`. -/
def DataItemTransportSize.fromCode (val : Nat) : DataItemTransportSize :=
  match val with
  | 0x03 => .bit
  | 0x04 => .byte
  | 0x05 => .integer
  | 0x07 => .real
  | 0x09 => .octetString
  | _ => .null

/-- `DataItemTransportSize::len`: divisor used to turn a bit count into an
element count.  `Null` has length 0. -/
def DataItemTransportSize.len : DataItemTransportSize → Nat
  | .null => 0
  | .bit => 1
  | .byte => 8
  | .integer => 8
  | .real => 8
  | .octetString => 8

/-- `impl From<S7DataTypes> for DataItemTransportSize`. -/
def DataItemTransportSize.fromDataType : S7DataTypes → DataItemTransportSize
  | .s7bit => .bit
  | .s7int => .integer
  | .s7real => .real
  | _ => .byte

/-! ## User-facing accesses (src/client/mod.rs) -/

/-- `verify_max_bit` in src/client/mod.rs. -/
def verify_max_bit (bit : Nat) : Except Error Unit :=
  if bit > 7 then .error .requestedBitOutOfRange else .ok ()

/-- The `for access in info { verify_max_bit(access.max_bit())?; }` loop of
the multi-item operations, over the accesses' bit indices: the first
failing check aborts. -/
def verify_max_bits : List Nat → Except Error Unit
  | [] => .ok ()
  | b :: rest =>
    match verify_max_bit b with
    | .error e => .error e
    | .ok _ => verify_max_bits rest

/-- `enum S7ReadAccess`: a byte-range read or a single-bit read.
`db_number` is `u16`, `start`/`byte` are `u32`, `length` is `u16`,
`bit` is `u8`; the fields hold the numeric values of those machine
integers. -/
inductive S7ReadAccess where
  | bytes (db_number start length : Nat)
  | bit (db_number byte bit : Nat)
deriving DecidableEq, Repr

namespace S7ReadAccess

/-- `S7ReadAccess::db_number`. -/
def db_number : S7ReadAccess → Nat
  | .bytes db _ _ => db
  | .bit db _ _ => db

/-- `S7ReadAccess::start`: for a bit access the bit offset `byte * 8 + bit`,
computed in `u32` (wraps modulo `2^32`). -/
def start : S7ReadAccess → Nat
  | .bytes _ s _ => s
  | .bit _ byteIdx bitIdx => (byteIdx * 8 + bitIdx) % 2 ^ 32

/-- `S7ReadAccess::len`: requested byte count (`1` for a bit access). -/
def len : S7ReadAccess → Nat
  | .bytes _ _ l => l
  | .bit _ _ _ => 1

/-- `S7ReadAccess::data_type`. -/
def data_type : S7ReadAccess → S7DataTypes
  | .bytes _ _ _ => .s7byte
  | .bit _ _ _ => .s7bit

/-- `S7ReadAccess::max_bit`: the bit index to validate (`0` for byte reads). -/
def max_bit : S7ReadAccess → Nat
  | .bytes _ _ _ => 0
  | .bit _ _ b => b

end S7ReadAccess

/-- `enum S7WriteAccess`: a byte-range write or a single-bit write. -/
inductive S7WriteAccess where
  | bytes (db_number start : Nat) (data : List Nat)
  | bit (db_number byte bit : Nat) (value : Bool)
deriving DecidableEq, Repr

namespace S7WriteAccess

/-- `S7WriteAccess::db_number`. -/
def db_number : S7WriteAccess → Nat
  | .bytes db _ _ => db
  | .bit db _ _ _ => db

/-- `S7WriteAccess::start`: for a bit access the bit offset `byte * 8 + bit`,
computed in `u32` (wraps modulo `2^32`). -/
def start : S7WriteAccess → Nat
  | .bytes _ s _ => s
  | .bit _ byteIdx bitIdx _ => (byteIdx * 8 + bitIdx) % 2 ^ 32

/-- `S7WriteAccess::len`. -/
def len : S7WriteAccess → Nat
  | .bytes _ _ d => d.length
  | .bit _ _ _ _ => 1

/-- `S7WriteAccess::data_type`. -/
def data_type : S7WriteAccess → S7DataTypes
  | .bytes _ _ _ => .s7byte
  | .bit _ _ _ _ => .s7bit

/-- `S7WriteAccess::data`. -/
def data : S7WriteAccess → List Nat
  | .bytes _ _ d => d
  | .bit _ _ _ v => [if v then 1 else 0]

/-- `S7WriteAccess::max_bit`. -/
def max_bit : S7WriteAccess → Nat
  | .bytes _ _ _ => 0
  | .bit _ _ b _ => b

end S7WriteAccess

/-! ## Request items (src/s7_protocol/segments/request_item.rs) -/

/-- `RequestItem`: the 12-byte on-wire variable specification. -/
structure RequestItem where
  specification_type : Nat
  item_length : Nat
  syntax_id : Nat
  var_type : Nat
  data_length : Nat
  db_number : Nat
  area : Nat
  address : Nat
deriving DecidableEq, Repr

namespace RequestItem

/-- `RequestItem::len`: 12 bytes on the wire (address serialised on 3 bytes). -/
def wire_len : Nat := 12

/-- `RequestItem::build`: the `address` field is the raw `start` for
bit/counter/timer accesses and `start * 8` (a `u32` multiplication, wrapping
modulo `2^32`) otherwise; `length` must fit `u16` or the build fails with
`TooManyItemsInOneRequest`. -/
def build (area : Area) (db_number start : Nat) (data_type : S7DataTypes)
    (length : Nat) : Except Error RequestItem :=
  if length < 2 ^ 16 then
    .ok {
      specification_type := 0x12
      item_length := 10
      syntax_id := 0x10
      var_type := data_type.code
      data_length := length
      db_number := db_number
      area := area.code
      address :=
        match data_type with
        | .s7bit | .s7counter | .s7timer => start
        | _ => start * 8 % 2 ^ 32 }
  else .error .tooManyItemsInOneRequest

/-- `RequestItem::address_to_bytes`: big-endian serialisation of the address
on 3 bytes, dropping everything above bit 23. -/
def address_to_bytes (item : RequestItem) : List Nat :=
  [item.address / 2 ^ 16 % 2 ^ 8, item.address / 2 ^ 8 % 2 ^ 8, item.address % 2 ^ 8]

end RequestItem

/-- The numeric value denoted by a 3-byte big-endian sequence. -/
def be3Value (bytes : List Nat) : Nat :=
  match bytes with
  | [b1, b2, b3] => b1 * 2 ^ 16 + b2 * 2 ^ 8 + b3
  | _ => 0

/-! ## Data items (src/s7_protocol/segments/data_item.rs) -/

/-- Decoded response `DataItem`. -/
structure DataItem where
  error_code : Nat
  var_type : Nat
  count : Nat
  data : List Nat
deriving DecidableEq, Repr

/-- `DataItem::header_len`. -/
def DataItem.header_len : Nat := 4

/-- Outcome of running a decoder on a buffer: success with the remaining
buffer, a returned error, or a Rust panic. -/
inductive DecodeOutcome (α : Type) where
  | ok (value : α) (rest : List Nat)
  | err (e : Error)
  | panic
deriving DecidableEq, Repr

/-- `DataItem::try_from(&mut BytesMut)`: reads the 4-byte item header,
recovers the element count as `count_bits / transport_size`
(`checked_div(0).unwrap_or(0)` gives 0 for the `Null` transport size), then
`split_to(count)` — which panics when `count` exceeds the remaining buffer.
The `error_code != 255` check happens only after the split. -/
def DataItem.try_from (bytes : List Nat) : DecodeOutcome DataItem :=
  match bytes with
  | error_code :: var_type :: c_hi :: c_lo :: rest =>
    let count := (c_hi * 2 ^ 8 + c_lo) / (DataItemTransportSize.fromCode var_type).len
    if count > rest.length then .panic
    else
      let data := rest.take count
      if error_code ≠ 255 then
        .err (.dataItemError (S7DataItemResponseError.fromCode error_code))
      else
        .ok { error_code, var_type, count, data } (rest.drop count)
  | _ => .err (.tryFrom bytes "Invalid length for data item")

/-! ## Negotiation parameters (src/s7_protocol/negotiate.rs) -/

/-- `NegotiatePDUParameters`. -/
structure NegotiatePDUParameters where
  function_code : Nat
  reserved : Nat
  max_amq_caller : Nat
  max_amq_calle : Nat
  pdu_length : Nat
deriving DecidableEq, Repr

/-- `NegotiatePDUParameters::len`. -/
def NegotiatePDUParameters.wire_len : Nat := 8

/-- `NegotiatePDUParameters::try_from`: requires at least 8 bytes;
`max_amq_caller` and `pdu_length` are read big-endian (`get_u16`) while
`max_amq_calle` is read little-endian (`get_u16_le`). -/
def NegotiatePDUParameters.try_from (bytes : List Nat) :
    Except Error NegotiatePDUParameters :=
  match bytes with
  | b0 :: b1 :: b2 :: b3 :: b4 :: b5 :: b6 :: b7 :: _ =>
    .ok {
      function_code := b0
      reserved := b1
      max_amq_caller := b2 * 2 ^ 8 + b3
      max_amq_calle := b4 + b5 * 2 ^ 8
      pdu_length := b6 * 2 ^ 8 + b7 }
  | _ => .error (.connection "Received short packet while negotiating connection")

/-! ## Frame layer (src/connection/iso.rs, src/connection/tcp.rs) -/

/-- Supported PLC families, `enum S7Types` in src/connection/iso.rs. -/
inductive S7Types where
  | s7200
  | s7300
  | s7400
  | s71200
  | s71500
deriving DecidableEq, Repr

/-- `S7Types::to_tsap_info`: `(rack, slot)` per PLC family. -/
def S7Types.to_tsap_info : S7Types → Nat × Nat
  | .s7200 | .s7300 | .s7400 => (0, 2)
  | .s71200 | .s71500 => (0, 0)

/-- `Tsap::build`: the 8 parameter bytes carrying source and destination
TSAP.  `SRC_TSAP = 0x0100`, destination TSAP is
`(ConnectionType::Basic << 8) + rack * 0x20 + slot`. -/
def Tsap.build (s7_type : S7Types) : List Nat :=
  let tsap_info := s7_type.to_tsap_info
  let dst_tsap := 3 * 2 ^ 8 + tsap_info.1 * 0x20 + tsap_info.2
  [0xC1, 2, 0x0100 / 2 ^ 8 % 2 ^ 8, 0x0100 % 2 ^ 8,
   0xC2, 2, dst_tsap / 2 ^ 8 % 2 ^ 8, dst_tsap % 2 ^ 8]

/-- `TTPKTHeader::len`: 4 bytes. -/
def TTPKTHeader.len : Nat := 4

/-- Serialisation of a TPKT header `{version = 3, reserved = 0, length}`. -/
def TTPKTHeader.bytes (length : Nat) : List Nat :=
  [3, 0, length / 2 ^ 8 % 2 ^ 8, length % 2 ^ 8]

/-- `COTPData`: the 3-byte COTP data-transfer header. -/
structure COTPData where
  header_length : Nat
  pdu_type : Nat
  eot_num : Nat
deriving DecidableEq, Repr

namespace COTPData

/-- `COTPData::len`: 3 bytes. -/
def len : Nat := 3

/-- `COTPData::build`: `{hdr_len = 2, pdu_type = 0xF0 (PDU_TYPE_DT),
eot_num = 0x80 (PDU_EOT)}`. -/
def build : COTPData := { header_length := len - 1, pdu_type := 0xF0, eot_num := 0x80 }

/-- `COTPData::is_last`: the fragment is final when `eot_num` *equals*
`PDU_EOT = 0x80` (an equality test, not a bit test). -/
def is_last (c : COTPData) : Bool := c.eot_num == 0x80

/-- `CoTp::req_ok` for `COTPData`: the PDU type must be `0xF0`. -/
def req_ok (c : COTPData) : Except Error Unit :=
  if c.pdu_type == 0xF0 then .ok () else .error (.isoResponse .invalidPDU)

end COTPData

/-- Outcome of the frame-layer receive loop `recv_buffer`. -/
inductive RecvOutcome where
  | ok (data : List Nat)
  | err (e : Error)
  | starved
  | panic
deriving DecidableEq, Repr

/-- The body of the `while !is_last` loop of `recv_buffer` in
src/connection/tcp.rs, over the list of TPKT record payloads still to be
read from the stream.  Each record's first 3 bytes are the COTP data header
(slicing panics when fewer than 3 bytes are present); the tail is appended
to the accumulator before the EOT test; an exhausted record list leaves the
loop waiting for more input (`starved`). -/
def recv_buffer_loop (acc : List Nat) : List (List Nat) → RecvOutcome
  | [] => .starved
  | frag :: rest =>
    match frag with
    | b0 :: b1 :: b2 :: tail =>
      let cotp : COTPData := { header_length := b0, pdu_type := b1, eot_num := b2 }
      match cotp.req_ok with
      | .error e => .err e
      | .ok _ =>
        let acc' := acc ++ tail
        if cotp.is_last then .ok acc' else recv_buffer_loop acc' rest
    | _ => .panic

/-- `recv_buffer`: reassemble COTP fragments starting from an empty buffer. -/
def recv_buffer (frags : List (List Nat)) : RecvOutcome := recv_buffer_loop [] frags

/-- A COTP data fragment as carried in a TPKT record: the 3-byte data
header `{hdr_len = 2, pdu_type = 0xF0, eot_num}` followed by the payload
tail. -/
def mk_frag (eot_num : Nat) (tail : List Nat) : List Nat := 2 :: 0xF0 :: eot_num :: tail

/-- `IsoControlPDU::build` in src/connection/iso.rs, serialised to the wire
bytes by `From<IsoControlPDU> for Vec<u8>`: TPKT header (total length 22),
COTP connection-request header `{hdr_len = 17, pdu_type = 0xE0 (PDU_TYPE_CR),
dst_ref = 0, src_ref = 0x0100, class/option = 0}`, then the PDU-size
parameter `{0xC0, 1, size code}` and the TSAP parameters.  The size code is
looked up from the proposed `pdu_size`; unlisted sizes fall to the default
`0x0B`. -/
def IsoControlPDU.build_bytes (pdu_size : Nat) (s7_type : S7Types) : List Nat :=
  let par_len := 11
  let iso_len := TTPKTHeader.len + 7 + par_len
  let pdu_size_val : Nat :=
    match pdu_size with
    | 128 => 0x07
    | 256 => 0x08
    | 512 => 0x09
    | 1024 => 0x0A
    | 4096 => 0x0C
    | 8192 => 0x0D
    | _ => 0x0B
  TTPKTHeader.bytes iso_len
    ++ [par_len + 6, 0xE0]
    ++ [0, 0]
    ++ [0x0100 / 2 ^ 8 % 2 ^ 8, 0x0100 % 2 ^ 8]
    ++ [0]
    ++ [0xC0, 0x01, pdu_size_val]
    ++ Tsap.build s7_type

/-- The COTP Connection Request that `connect` in src/connection/tcp.rs
writes on the wire: `IsoControlPDU::build(1024, s7_type)`. -/
def connect_request_bytes (s7_type : S7Types) : List Nat :=
  IsoControlPDU.build_bytes 1024 s7_type

/-! ## Request planner (src/s7_protocol/read_area.rs, write_area.rs) -/

/-- Modelled from the spec: `S7ProtocolHeader::len_response` — the module
src/s7_protocol/segments/header.rs is not under src/; the spec fixes the
response S7 header at 12 bytes (`H_resp = 12`). -/
def S7ProtocolHeader.len_response : Nat := 12

/-- `ReadWriteParams::len`: 2 bytes of parameter-segment header. -/
def ReadWriteParams.len : Nat := 2

/-- `calculate_response_size` in src/s7_protocol/read_area.rs: the data
bytes plus one 4-byte data-item header per item plus 14 bytes of headers. -/
def calculate_response_size (data_items : List S7ReadAccess) : Nat :=
  (data_items.map (fun item => item.len)).sum
    + data_items.length * DataItem.header_len + 14

/-- `assert_pdu_size_for_read`: request budget
`19 + 12 * N ≤ max_pdu_size`, then response budget
`calculate_response_size ≤ max_pdu_size`. -/
def assert_pdu_size_for_read (data_items : List S7ReadAccess) (max_pdu_size : Nat) :
    Except Error Unit :=
  if 19 + data_items.length * RequestItem.wire_len > max_pdu_size then
    .error .tooManyItemsInOneRequest
  else if calculate_response_size data_items > max_pdu_size then
    .error (.responseDataWouldBeTooLarge (calculate_response_size data_items) max_pdu_size)
  else .ok ()

/-- The item list that `read_area_single` dispatches: the original access
when the expected response fits the negotiated PDU length, otherwise
`len / max_data_size` full chunks of `max_data_size` bytes plus a remainder
chunk.  Chunk starts are computed in `u32` (`(i * max_data_size) as u32 +
start`), chunk lengths are cast `as u16`. -/
def read_area_single_items (pdu_length : Nat) (data_item : S7ReadAccess) :
    List S7ReadAccess :=
  let response_size := calculate_response_size [data_item]
  if response_size > pdu_length then
    let max_data_size := pdu_length - S7ProtocolHeader.len_response
      - ReadWriteParams.len - DataItem.header_len
    let item_count_required := data_item.len / max_data_size
    let rest := data_item.len % max_data_size
    let items := (List.range item_count_required).map (fun i =>
      S7ReadAccess.bytes data_item.db_number
        ((i * max_data_size % 2 ^ 32 + data_item.start) % 2 ^ 32)
        (max_data_size % 2 ^ 16))
    if rest > 0 then
      items ++ [S7ReadAccess.bytes data_item.db_number
        ((item_count_required * max_data_size % 2 ^ 32 + data_item.start) % 2 ^ 32)
        (rest % 2 ^ 16)]
    else items
  else [data_item]

/-- The `for req in items` loop of `read_area_single`: each sub-access is
dispatched in order (`responder` abstracts one send/receive/decode round
trip) and the decoded payloads are appended to the overall response
buffer; the first error aborts the call. -/
def read_area_single_run (pdu_length : Nat) (data_item : S7ReadAccess)
    (responder : S7ReadAccess → Except Error (List Nat)) : Except Error (List Nat) :=
  ((read_area_single_items pdu_length data_item).mapM responder).map List.flatten

/-- The pre-wire phase of `read_area_multi`: the PDU-size assertion, then
one `RequestItem` per access, in input order.  Any error here happens
before a single byte is sent. -/
def read_area_multi_request (pdu_length : Nat) (area : Area)
    (info : List S7ReadAccess) : Except Error (List RequestItem) := do
  let _ ← assert_pdu_size_for_read info pdu_length
  info.mapM (fun item =>
    RequestItem.build area item.db_number item.start item.data_type item.len)

/-- `read_area_multi` with an explicit count of PDUs sent on the wire:
a pre-flight error sends nothing; otherwise exactly one request PDU is
exchanged (`response` abstracts its decoded outcome) — multi reads are
never split. -/
def read_area_multi_run (pdu_length : Nat) (area : Area) (info : List S7ReadAccess)
    (response : Except Error (List (Except Error (List Nat)))) :
    Nat × Except Error (List (Except Error (List Nat))) :=
  match read_area_multi_request pdu_length area info with
  | .error e => (0, .error e)
  | .ok _ => (1, response)

/-- `DataItemTransportSize as u8`: the wire code of each transport size. -/
def DataItemTransportSize.code : DataItemTransportSize → Nat
  | .null => 0x00
  | .bit => 0x03
  | .byte => 0x04
  | .integer => 0x05
  | .real => 0x07
  | .octetString => 0x09

/-- `DataItem::build_write2` in src/s7_protocol/write_area.rs: fails with
`DataItemTooLarge` when the payload length does not fit `u16`; the count
field is `len * transport_size` in `u16` arithmetic. -/
def DataItem.build_write2 (data_type : DataItemTransportSize) (data : List Nat) :
    Except Error DataItem :=
  if data.length < 2 ^ 16 then
    .ok { error_code := 0, var_type := data_type.code,
          count := data.length * data_type.len % 2 ^ 16, data }
  else .error .dataItemTooLarge

/-- `assert_pdu_size_for_write`: `N * 18 + 4 ≤ max_pdu_size`
(else `TooManyItemsInOneRequest`), then
`Σ data_len + N * 16 + 4 ≤ max_pdu_size` (else `TooMuchDataToWrite`). -/
def assert_pdu_size_for_write (data_items : List S7WriteAccess) (max_pdu_size : Nat) :
    Except Error Unit :=
  if data_items.length * 18 + TTPKTHeader.len > max_pdu_size then
    .error .tooManyItemsInOneRequest
  else if (data_items.map S7WriteAccess.len).sum + data_items.length * 16
      + TTPKTHeader.len > max_pdu_size then
    .error .tooMuchDataToWrite
  else .ok ()

/-- `write_area_single` up to the wire exchange, with an explicit count of
PDUs sent: size assertion, request-item build and data-item build all
happen before anything is transmitted; `response` abstracts the decoded
outcome of the single exchange. -/
def write_area_single_run (pdu_length : Nat) (area : Area) (data_item : S7WriteAccess)
    (response : Except Error Unit) : Nat × Except Error Unit :=
  match assert_pdu_size_for_write [data_item] pdu_length with
  | .error e => (0, .error e)
  | .ok _ =>
    match RequestItem.build area data_item.db_number data_item.start
        data_item.data_type data_item.len with
    | .error e => (0, .error e)
    | .ok _ =>
      match DataItem.build_write2 (.fromDataType data_item.data_type) data_item.data with
      | .error e => (0, .error e)
      | .ok _ => (1, response)

/-- `write_area_multi` up to the wire exchange, with an explicit count of
PDUs sent. -/
def write_area_multi_run (pdu_length : Nat) (area : Area) (info : List S7WriteAccess)
    (response : Except Error (List (Except Error Unit))) :
    Nat × Except Error (List (Except Error Unit)) :=
  match assert_pdu_size_for_write info pdu_length with
  | .error e => (0, .error e)
  | .ok _ =>
    match info.mapM (fun item =>
        RequestItem.build area item.db_number item.start item.data_type item.len) with
    | .error e => (0, .error e)
    | .ok _ =>
      match info.mapM (fun item =>
          DataItem.build_write2 (.fromDataType item.data_type) item.data) with
      | .error e => (0, .error e)
      | .ok _ => (1, response)

/-! ## Session object (src/client/create.rs) -/

/-- The mutable state of `S7Client`: negotiated parameters, the PDU
reference counter and the `closed` flag (the TCP stream itself is left to
the environment). -/
structure S7ClientState where
  pdu_length : Nat
  pdu_number : Nat
  max_amq_caller : Nat
  max_amq_calle : Nat
  closed : Bool
deriving DecidableEq, Repr

namespace S7ClientState

/-- `S7Client::set_closed`. -/
def set_closed (c : S7ClientState) : S7ClientState := { c with closed := true }

/-- `S7Client::is_closed`. -/
def is_closed (c : S7ClientState) : Bool := c.closed

/-- `S7Client::validate_connection_info`: fails when the session is closed. -/
def validate_connection_info (c : S7ClientState) : Except Error Unit :=
  if c.closed then .error (.connection "Connection is closed") else .ok ()

end S7ClientState

/-! ## Public operations (src/client/read.rs, src/client/write.rs)

Each operation is modelled over the outcome of its protocol-layer exchange
(the network is external).  Operations that have pre-flight validation also
return the number of request PDUs that reached the wire. -/

/-- `S7Client::db_read`: validate the session, run `read_area_single`, and
on error close the session iff the error is a connection error. -/
def S7Client.db_read (client : S7ClientState)
    (outcome : Except Error (List Nat)) : S7ClientState × Except Error (List Nat) :=
  match client.validate_connection_info with
  | .error e => (client, .error e)
  | .ok _ =>
    match outcome with
    | .ok result => (client, .ok result)
    | .error e =>
      (if e.is_connection_error then client.set_closed else client, .error e)

/-- Outcome of an operation whose Rust body can index into an empty
response buffer. -/
inductive CallOutcome (α : Type) where
  | ok (v : α)
  | err (e : Error)
  | panic
deriving DecidableEq, Repr

/-- `S7Client::db_read_bit`: validate the session, check the bit index,
then run `read_area_single` (first component: request PDUs sent).  On
success the Rust code indexes `result[0]`, a panic on an empty buffer. -/
def S7Client.db_read_bit (client : S7ClientState) (bitIdx : Nat)
    (outcome : Except Error (List Nat)) : Nat × S7ClientState × CallOutcome Bool :=
  match client.validate_connection_info with
  | .error e => (0, client, .err e)
  | .ok _ =>
    match verify_max_bit bitIdx with
    | .error e => (0, client, .err e)
    | .ok _ =>
      match outcome with
      | .ok [] => (1, client, .panic)
      | .ok (x :: _) => (1, client, .ok (decide (x > 0)))
      | .error e =>
        (1, if e.is_connection_error then client.set_closed else client, .err e)

/-- `S7Client::db_read_multi`: validate the session, check every access's
bit index, then run `read_area_multi`; errors close the session iff they
are connection errors.  First component: request PDUs sent. -/
def S7Client.db_read_multi (client : S7ClientState) (info : List S7ReadAccess)
    (response : Except Error (List (Except Error (List Nat)))) :
    Nat × S7ClientState × Except Error (List (Except Error (List Nat))) :=
  match client.validate_connection_info with
  | .error e => (0, client, .error e)
  | .ok _ =>
    match verify_max_bits (info.map S7ReadAccess.max_bit) with
    | .error e => (0, client, .error e)
    | .ok _ =>
      match read_area_multi_run client.pdu_length .dataBlock info response with
      | (sent, .ok r) => (sent, client, .ok r)
      | (sent, .error e) =>
        (sent, if e.is_connection_error then client.set_closed else client, .error e)

/-- `S7Client::db_write`: validate the session, then run
`write_area_single`.  The write path has no error wrapper: the result is
returned as-is and the `closed` flag is never touched. -/
def S7Client.db_write (client : S7ClientState) (data_item : S7WriteAccess)
    (response : Except Error Unit) : Nat × S7ClientState × Except Error Unit :=
  match client.validate_connection_info with
  | .error e => (0, client, .error e)
  | .ok _ =>
    let r := write_area_single_run client.pdu_length .dataBlock data_item response
    (r.1, client, r.2)

/-- `S7Client::db_write_bit`: validate, check the bit index, then run
`write_area_single` with a `Bit` access; no error wrapper. -/
def S7Client.db_write_bit (client : S7ClientState) (db byteIdx bitIdx : Nat)
    (value : Bool) (response : Except Error Unit) :
    Nat × S7ClientState × Except Error Unit :=
  match client.validate_connection_info with
  | .error e => (0, client, .error e)
  | .ok _ =>
    match verify_max_bit bitIdx with
    | .error e => (0, client, .error e)
    | .ok _ =>
      let r := write_area_single_run client.pdu_length .dataBlock
        (.bit db byteIdx bitIdx value) response
      (r.1, client, r.2)

/-- `S7Client::db_write_multi`: validate, check every access's bit index,
then run `write_area_multi`; no error wrapper. -/
def S7Client.db_write_multi (client : S7ClientState) (info : List S7WriteAccess)
    (response : Except Error (List (Except Error Unit))) :
    Nat × S7ClientState × Except Error (List (Except Error Unit)) :=
  match client.validate_connection_info with
  | .error e => (0, client, .error e)
  | .ok _ =>
    match verify_max_bits (info.map S7WriteAccess.max_bit) with
    | .error e => (0, client, .error e)
    | .ok _ =>
      let r := write_area_multi_run client.pdu_length .dataBlock info response
      (r.1, client, r.2)

/-! ## Pool manager (src/client/pooled.rs) -/

/-- `S7Info`: the negotiated parameters cached by the pool manager. -/
structure S7Info where
  pdu_length : Nat
  max_amq_caller : Nat
  max_amq_calle : Nat
deriving DecidableEq, Repr

/-- `From<&S7Client> for S7Info`. -/
def S7Info.fromClient (c : S7ClientState) : S7Info :=
  { pdu_length := c.pdu_length, max_amq_caller := c.max_amq_caller,
    max_amq_calle := c.max_amq_calle }

/-- `S7PoolManager::recycle`: the session is dropped (recycle returns
`Err`, second component `true`) exactly when its `pdu_length` is 0, in
which case the cached parameters are cleared; otherwise the session is
kept for reuse and the cache is untouched. -/
def S7PoolManager.recycle (cache : Option S7Info) (client : S7ClientState) :
    Option S7Info × Bool :=
  if client.pdu_length = 0 then (none, true) else (cache, false)

end S7

namespace S7

/-! ## Helper lemmas -/

/-- The 3-byte big-endian address serialisation denotes the address modulo
`2^24`. -/
theorem be3Value_address_to_bytes (r : RequestItem) :
    be3Value r.address_to_bytes = r.address % 2 ^ 24 := by
  simp only [RequestItem.address_to_bytes, be3Value]
  omega

/-! ## Claims -/

/-- C8: decoding the S7 negotiation response parameters reads
`max_amq_callee` little-endian while `max_amq_caller` and `pdu_length` in
the same block are read big-endian, and fails when fewer than 8 bytes are
available. -/
theorem claim_C8_negotiate_endianness :
    (∀ b0 b1 b2 b3 b4 b5 b6 b7 tail_bytes,
      NegotiatePDUParameters.try_from
          (b0 :: b1 :: b2 :: b3 :: b4 :: b5 :: b6 :: b7 :: tail_bytes) =
        .ok { function_code := b0, reserved := b1,
              max_amq_caller := b2 * 2 ^ 8 + b3,
              max_amq_calle := b4 + b5 * 2 ^ 8,
              pdu_length := b6 * 2 ^ 8 + b7 })
    ∧ (∀ bytes : List Nat, bytes.length < 8 →
        NegotiatePDUParameters.try_from bytes =
          .error (.connection "Received short packet while negotiating connection")) := by
  constructor
  · intro b0 b1 b2 b3 b4 b5 b6 b7 tail_bytes
    rfl
  · intro bytes h
    rcases bytes with _ | ⟨a, _ | ⟨b, _ | ⟨c, _ | ⟨d, _ | ⟨e, _ | ⟨f, _ | ⟨g, _ | ⟨i, t⟩⟩⟩⟩⟩⟩⟩⟩ <;>
      first
        | rfl
        | (exfalso; simp only [List.length] at h; omega)

/-- Witness for C8 at a concrete buffer: bytes `[0xF0,0,1,0,0,3,3,0xC0]`
decode with `max_amq_caller = 0x0100` (big-endian) and
`max_amq_calle = 0x0300` (little-endian), and a 3-byte buffer is rejected. -/
theorem claim_C8_negotiate_endianness_witness :
    NegotiatePDUParameters.try_from [0xF0, 0, 1, 0, 0, 3, 3, 0xC0] =
      .ok { function_code := 0xF0, reserved := 0, max_amq_caller := 0x0100,
            max_amq_calle := 0x0300, pdu_length := 0x03C0 }
    ∧ NegotiatePDUParameters.try_from [1, 2, 3] =
        .error (.connection "Received short packet while negotiating connection") :=
  ⟨claim_C8_negotiate_endianness.1 0xF0 0 1 0 0 3 3 0xC0 [],
   claim_C8_negotiate_endianness.2 [1, 2, 3] (by decide)⟩

/-- C10: the response data-item decoder is not total.  The 4-byte buffer
`[0xFF, 0x04, 0x00, 0x10]` is well-formed looking (length ≥ 4) and its
count field decodes to `0x0010 / 8 = 2` elements, which exceeds the 0
remaining bytes: the decoder panics (`split_to` out of bounds) instead of
returning an error.  An unrecognised `var_type` (`0x42`) gives transport
size 0, so `checked_div(..).unwrap_or(0)` yields count 0 and the decoder
silently succeeds with an empty payload. -/
theorem claim_C10_data_item_decoder_not_total :
    DataItem.try_from [0xFF, 0x04, 0x00, 0x10] = .panic
    ∧ ([0xFF, 0x04, 0x00, 0x10] : List Nat).length ≥ 4
    ∧ (0x00 * 2 ^ 8 + 0x10) / (DataItemTransportSize.fromCode 0x04).len = 2
    ∧ (DataItemTransportSize.fromCode 0x42).len = 0
    ∧ DataItem.try_from [0xFF, 0x42, 0xFF, 0xFF] =
        .ok { error_code := 0xFF, var_type := 0x42, count := 0, data := [] } [] := by
  refine ⟨by decide, by decide, by decide, by decide, by decide⟩

/-- C7: the `RequestItem` built from an access carries the raw `start` as
address for Bit/Counter/Timer variable types and `start * 8` (in `u32`)
otherwise; the 3-byte big-endian address encoding keeps exactly the low
24 bits; and a `Bit` access to byte `B`, bit `b` has start value
`B * 8 + b` (in `u32`) for both reads and writes. -/
theorem claim_C7_request_item_address (area : Area) (db start length : Nat)
    (dt : S7DataTypes) (hlen : length < 2 ^ 16) :
    (∃ r, RequestItem.build area db start dt length = .ok r
      ∧ r.address = (match dt with
          | .s7bit | .s7counter | .s7timer => start
          | _ => start * 8 % 2 ^ 32)
      ∧ be3Value r.address_to_bytes = r.address % 2 ^ 24)
    ∧ (∀ B b, (S7ReadAccess.bit db B b).start = (B * 8 + b) % 2 ^ 32)
    ∧ (∀ B b v, (S7WriteAccess.bit db B b v).start = (B * 8 + b) % 2 ^ 32) := by
  refine ⟨?_, fun B b => rfl, fun B b v => rfl⟩
  have hb : RequestItem.build area db start dt length = .ok {
      specification_type := 0x12
      item_length := 10
      syntax_id := 0x10
      var_type := dt.code
      data_length := length
      db_number := db
      area := area.code
      address :=
        match dt with
        | .s7bit | .s7counter | .s7timer => start
        | _ => start * 8 % 2 ^ 32 } := by
    simp only [RequestItem.build, if_pos hlen]
  exact ⟨_, hb, rfl, be3Value_address_to_bytes _⟩

/-- Witness for C7 at the spec's own example `DBX40.3`: the bit access has
start `40 * 8 + 3 = 323 = 0x000143`, the built item's address is that raw
value, and its 3-byte encoding denotes `323`. -/
theorem claim_C7_request_item_address_witness :
    (∃ r, RequestItem.build .dataBlock 1 ((S7ReadAccess.bit 1 40 3).start) .s7bit 1 = .ok r
      ∧ r.address = (S7ReadAccess.bit 1 40 3).start
      ∧ be3Value r.address_to_bytes = r.address % 2 ^ 24)
    ∧ (S7ReadAccess.bit 1 40 3).start = 323 :=
  ⟨(claim_C7_request_item_address .dataBlock 1 ((S7ReadAccess.bit 1 40 3).start) 1
      .s7bit (by decide)).1, by decide⟩

/-- C3 counterexample: a session whose `closed` flag is set but whose
negotiated `pdu_length` is 480 is *not* dropped by `recycle` — it is
returned for reuse with the cache untouched, refuting "dropped if and only
if its closed flag is set". -/
theorem claim_C3_recycle_counterexample :
    (S7ClientState.mk 480 0 256 256 true).is_closed = true
    ∧ S7PoolManager.recycle (some (S7Info.mk 480 256 256))
        (S7ClientState.mk 480 0 256 256 true) = (some (S7Info.mk 480 256 256), false) := by
  exact ⟨rfl, rfl⟩

/-- C3 (amended): the recycle step drops a session if and only if its
`pdu_length` is 0 (clearing the cached parameters); the `closed` flag is
ignored, and any session with a non-zero `pdu_length` is returned to the
idle set with the cache untouched. -/
theorem claim_C3_recycle_drops_iff_pdu_zero (cache : Option S7Info)
    (client : S7ClientState) :
    ((S7PoolManager.recycle cache client).2 = true ↔ client.pdu_length = 0)
    ∧ S7PoolManager.recycle cache client = S7PoolManager.recycle cache client.set_closed
    ∧ (client.pdu_length ≠ 0 → S7PoolManager.recycle cache client = (cache, false)) := by
  unfold S7PoolManager.recycle S7ClientState.set_closed
  by_cases h : client.pdu_length = 0 <;> simp [h]

/-- Witness for C3 (amended): an open session with `pdu_length = 480` is
kept. -/
theorem claim_C3_recycle_drops_iff_pdu_zero_witness :
    S7PoolManager.recycle (some (S7Info.mk 480 256 256)) (S7ClientState.mk 480 5 256 256 false)
      = (some (S7Info.mk 480 256 256), false) :=
  (claim_C3_recycle_drops_iff_pdu_zero (some (S7Info.mk 480 256 256))
    (S7ClientState.mk 480 5 256 256 false)).2.2 (by decide)

/-- C2 counterexample: `db_write` on an open session that hits a
`DataExchangeTimedOut` — a transport/connection error — returns the error
with the session still open (`closed = false`), refuting "the session's
closed flag is set to true afterwards" for the write operations. -/
theorem claim_C2_write_does_not_close_counterexample :
    S7Client.db_write (S7ClientState.mk 480 0 256 256 false) (.bytes 1 0 [1, 2])
        (.error .dataExchangeTimedOut)
      = (1, S7ClientState.mk 480 0 256 256 false, .error .dataExchangeTimedOut)
    ∧ Error.dataExchangeTimedOut.is_connection_error = true
    ∧ (S7ClientState.mk 480 0 256 256 false).closed = false := by
  exact ⟨rfl, rfl, rfl⟩

/-- The bit-verification loop only ever fails with
`RequestedBitOutOfRange`. -/
theorem verify_max_bits_error_shape :
    ∀ {bits : List Nat} {e : Error}, verify_max_bits bits = .error e →
      e = .requestedBitOutOfRange := by
  intro bits
  induction bits with
  | nil =>
    intro e h
    simp [verify_max_bits] at h
  | cons b rest ih =>
    intro e h
    by_cases hb : 7 < b
    · rw [show verify_max_bits (b :: rest) = .error .requestedBitOutOfRange from by
        simp [verify_max_bits, verify_max_bit, hb]] at h
      injection h with h1
      exact h1.symm
    · simp only [verify_max_bits, verify_max_bit, if_neg hb] at h
      exact ih h

/-- C2 (amended): the read-side operations close the session exactly on
transport/connection errors and leave it open on every other error —
`db_read_multi` included: whatever error it surfaces (pre-flight or from
the exchange), the final `closed` flag equals that error's
connection-error classification, and success leaves the session
untouched.  The write-side operations never touch the `closed` flag:
their errors are returned with the session state unchanged. -/
theorem claim_C2_session_closing (client : S7ClientState) (e : Error)
    (hopen : client.closed = false) :
    ((S7Client.db_read client (.error e)).1.closed = e.is_connection_error)
    ∧ ((S7Client.db_read client (.error e)).2 = .error e)
    ∧ (∀ v, S7Client.db_read client (.ok v) = (client, .ok v))
    ∧ (∀ bitIdx, bitIdx ≤ 7 →
        (S7Client.db_read_bit client bitIdx (.error e)).2.1.closed = e.is_connection_error)
    ∧ (∀ item response, (S7Client.db_write client item response).2.1 = client)
    ∧ (∀ db byteIdx bitIdx value response,
        (S7Client.db_write_bit client db byteIdx bitIdx value response).2.1 = client)
    ∧ (∀ info response, (S7Client.db_write_multi client info response).2.1 = client)
    ∧ (∀ info response e',
        (S7Client.db_read_multi client info response).2.2 = .error e' →
        (S7Client.db_read_multi client info response).2.1.closed = e'.is_connection_error)
    ∧ (∀ info response r,
        (S7Client.db_read_multi client info response).2.2 = .ok r →
        (S7Client.db_read_multi client info response).2.1 = client)
    := by
  have hval : client.validate_connection_info = .ok () := by
    simp [S7ClientState.validate_connection_info, hopen]
  refine ⟨?_, ?_, ?_, ?_, ?_, ?_, ?_, ?_, ?_⟩
  · simp only [S7Client.db_read, hval]
    by_cases hc : e.is_connection_error <;>
      simp [hc, S7ClientState.set_closed, hopen]
  · simp [S7Client.db_read, hval]
  · intro v
    simp [S7Client.db_read, hval]
  · intro bitIdx hb
    have hverify : verify_max_bit bitIdx = .ok () := by
      unfold verify_max_bit
      rw [if_neg (by omega)]
    simp only [S7Client.db_read_bit, hval, hverify]
    by_cases hc : e.is_connection_error <;>
      simp [hc, S7ClientState.set_closed, hopen]
  · intro item response
    simp only [S7Client.db_write, hval]
  · intro db byteIdx bitIdx value response
    simp only [S7Client.db_write_bit, hval]
    cases h : verify_max_bit bitIdx <;> rfl
  · intro info response
    simp only [S7Client.db_write_multi, hval]
    cases h : verify_max_bits (info.map S7WriteAccess.max_bit) <;> rfl
  · intro info response e' h
    simp only [S7Client.db_read_multi, hval] at h ⊢
    cases hv : verify_max_bits (info.map S7ReadAccess.max_bit) with
    | error e0 =>
      rw [hv] at h
      have he0 : e0 = Error.requestedBitOutOfRange := verify_max_bits_error_shape hv
      have h2 : (Except.error e0 : Except Error (List (Except Error (List Nat))))
          = .error e' := h
      injection h2 with h3
      show client.closed = e'.is_connection_error
      rw [hopen, ← h3, he0]
      rfl
    | ok u =>
      rw [hv] at h
      rcases hrun : read_area_multi_run client.pdu_length .dataBlock info response
        with ⟨sent, res⟩
      rw [hrun] at h
      cases res with
      | ok r =>
        exact absurd
          (show (Except.ok r : Except Error (List (Except Error (List Nat))))
            = .error e' from h) (by simp)
      | error e0 =>
        have h2 : (Except.error e0 : Except Error (List (Except Error (List Nat))))
            = .error e' := h
        injection h2 with h3
        subst h3
        show (if e0.is_connection_error then client.set_closed else client).closed
          = e0.is_connection_error
        by_cases hc : e0.is_connection_error <;>
          simp [hc, S7ClientState.set_closed, hopen]
  · intro info response r h
    simp only [S7Client.db_read_multi, hval] at h ⊢
    cases hv : verify_max_bits (info.map S7ReadAccess.max_bit) with
    | error e0 => rfl
    | ok u =>
      rw [hv] at h
      rcases hrun : read_area_multi_run client.pdu_length .dataBlock info response
        with ⟨sent, res⟩
      rw [hrun] at h
      cases res with
      | ok r0 => rfl
      | error e0 =>
        exact absurd
          (show (Except.error e0 : Except Error (List (Except Error (List Nat))))
            = .ok r from h) (by simp)

/-- Witness for C2 (amended) at a concrete open session and a timeout
error: the single read closes the session, the multi read surfacing the
same transport error closes it too, and the write leaves it untouched. -/
theorem claim_C2_session_closing_witness :
    ((S7Client.db_read (S7ClientState.mk 480 0 256 256 false)
        (.error .dataExchangeTimedOut)).1.closed
      = Error.dataExchangeTimedOut.is_connection_error)
    ∧ ((S7Client.db_read_multi (S7ClientState.mk 480 0 256 256 false) [.bytes 1 0 4]
        (.error .dataExchangeTimedOut)).2.1.closed
      = Error.dataExchangeTimedOut.is_connection_error)
    ∧ ((S7Client.db_write (S7ClientState.mk 480 0 256 256 false) (.bytes 1 0 [1, 2])
        (.error .dataExchangeTimedOut)).2.1 = S7ClientState.mk 480 0 256 256 false) :=
  ⟨(claim_C2_session_closing (S7ClientState.mk 480 0 256 256 false)
      .dataExchangeTimedOut rfl).1,
   (claim_C2_session_closing (S7ClientState.mk 480 0 256 256 false)
      .dataExchangeTimedOut rfl).2.2.2.2.2.2.2.1 [.bytes 1 0 4]
      (.error .dataExchangeTimedOut) .dataExchangeTimedOut rfl,
   (claim_C2_session_closing (S7ClientState.mk 480 0 256 256 false)
      .dataExchangeTimedOut rfl).2.2.2.2.1 (.bytes 1 0 [1, 2])
      (.error .dataExchangeTimedOut)⟩

/-- C4 counterexample: the Connection Request that `connect` writes for an
S7-1200 proposes PDU size 1024, whose size code on the wire (byte 13 of
the frame) is `0x0A`, not `0x0B`. -/
theorem claim_C4_proposed_pdu_counterexample :
    connect_request_bytes .s71200 =
      [3, 0, 0, 22, 17, 0xE0, 0, 0, 1, 0, 0, 0xC0, 1, 0x0A, 0xC1, 2, 1, 0, 0xC2, 2, 3, 0]
    ∧ (connect_request_bytes .s71200)[13]? = some 0x0A
    ∧ (0x0A : Nat) ≠ 0x0B := by
  refine ⟨by decide, by decide, by decide⟩

/-- C4 (amended): for every PLC family the COTP Connection Request written
by `connect` carries the proposed PDU size code `0x0A` (a proposed TPDU
size of 1024 bytes), since `connect` builds the request with
`pdu_size = 1024`; the default code `0x0B` is used only for sizes outside
the lookup table. -/
theorem claim_C4_proposed_pdu_code :
    ∀ s7_type : S7Types, (connect_request_bytes s7_type)[13]? = some 0x0A := by
  intro t
  cases t <;> rfl

/-- A bit index above 7 anywhere in the list makes the verification loop
fail with `RequestedBitOutOfRange`. -/
theorem verify_max_bits_error {bits : List Nat} (h : ∃ b ∈ bits, 7 < b) :
    verify_max_bits bits = .error .requestedBitOutOfRange := by
  induction bits with
  | nil => simp at h
  | cons b rest ih =>
    by_cases hb : 7 < b
    · simp [verify_max_bits, verify_max_bit, hb]
    · obtain ⟨x, hx, hgt⟩ := h
      have hxr : x ∈ rest := by
        rcases List.mem_cons.mp hx with h1 | h1
        · omega
        · exact h1
      simp [verify_max_bits, verify_max_bit, hb, ih ⟨x, hxr, hgt⟩]

/-- Bit indices that are all at most 7 pass the verification loop. -/
theorem verify_max_bits_ok {bits : List Nat} (h : ∀ b ∈ bits, b ≤ 7) :
    verify_max_bits bits = .ok () := by
  induction bits with
  | nil => rfl
  | cons b rest ih =>
    have hb : ¬ 7 < b := by
      have := h b (List.mem_cons_self b rest)
      omega
    simp [verify_max_bits, verify_max_bit, hb,
      ih (fun x hx => h x (List.mem_cons_of_mem _ hx))]

/-- C9: every bit-addressed operation with a bit index above 7 fails with
`RequestedBitOutOfRange` before any request PDU reaches the wire (sent
count 0, session untouched), and bit indices 0 through 7 pass the
validation. -/
theorem claim_C9_bit_range_validation (client : S7ClientState)
    (hopen : client.closed = false) (bitIdx : Nat) (hbit : 7 < bitIdx) :
    (∀ outcome, S7Client.db_read_bit client bitIdx outcome =
        (0, client, .err .requestedBitOutOfRange))
    ∧ (∀ db byteIdx value response,
        S7Client.db_write_bit client db byteIdx bitIdx value response =
          (0, client, .error .requestedBitOutOfRange))
    ∧ (∀ info response, (∃ a ∈ info, 7 < S7ReadAccess.max_bit a) →
        S7Client.db_read_multi client info response =
          (0, client, .error .requestedBitOutOfRange))
    ∧ (∀ info response, (∃ a ∈ info, 7 < S7WriteAccess.max_bit a) →
        S7Client.db_write_multi client info response =
          (0, client, .error .requestedBitOutOfRange))
    ∧ (∀ b, b ≤ 7 → verify_max_bit b = .ok ()) := by
  have hval : client.validate_connection_info = .ok () := by
    simp [S7ClientState.validate_connection_info, hopen]
  have hverify : verify_max_bit bitIdx = .error .requestedBitOutOfRange := by
    unfold verify_max_bit
    rw [if_pos hbit]
  refine ⟨?_, ?_, ?_, ?_, ?_⟩
  · intro outcome
    simp [S7Client.db_read_bit, hval, hverify]
  · intro db byteIdx value response
    simp [S7Client.db_write_bit, hval, hverify]
  · intro info response ⟨a, ha, hgt⟩
    have : verify_max_bits (info.map S7ReadAccess.max_bit) =
        .error .requestedBitOutOfRange :=
      verify_max_bits_error ⟨a.max_bit, List.mem_map_of_mem _ ha, hgt⟩
    simp [S7Client.db_read_multi, hval, this]
  · intro info response ⟨a, ha, hgt⟩
    have : verify_max_bits (info.map S7WriteAccess.max_bit) =
        .error .requestedBitOutOfRange :=
      verify_max_bits_error ⟨a.max_bit, List.mem_map_of_mem _ ha, hgt⟩
    simp [S7Client.db_write_multi, hval, this]
  · intro b hb
    unfold verify_max_bit
    rw [if_neg (by omega)]

/-- Witness for C9 at bit index 8 on an open session: the read-bit call
fails pre-flight with nothing sent. -/
theorem claim_C9_bit_range_validation_witness :
    S7Client.db_read_bit (S7ClientState.mk 480 0 256 256 false) 8 (.ok [1]) =
      (0, S7ClientState.mk 480 0 256 256 false, .err .requestedBitOutOfRange) :=
  (claim_C9_bit_range_validation (S7ClientState.mk 480 0 256 256 false) rfl 8
    (by decide)).1 (.ok [1])

/-- Building one `RequestItem` per access succeeds (in input order, one
item per access) whenever every requested length fits `u16`. -/
theorem mapM_request_item_ok (area : Area) {info : List S7ReadAccess}
    (h : ∀ a ∈ info, S7ReadAccess.len a < 2 ^ 16) :
    ∃ l, info.mapM (fun item =>
        RequestItem.build area item.db_number item.start item.data_type item.len)
      = .ok l ∧ l.length = info.length := by
  induction info with
  | nil => exact ⟨[], rfl, rfl⟩
  | cons a rest ih =>
    obtain ⟨l, hl, hlen⟩ := ih (fun x hx => h x (List.mem_cons_of_mem _ hx))
    obtain ⟨r, hr⟩ :
        ∃ r, RequestItem.build area a.db_number a.start a.data_type a.len = .ok r := by
      unfold RequestItem.build
      rw [if_pos (h a (List.mem_cons_self a rest))]
      exact ⟨_, rfl⟩
    refine ⟨r :: l, ?_, by simp [hlen]⟩
    rw [List.mapM_cons, hr, hl]
    rfl

/-- C6: a multi-item read with `N` items fails pre-wire with
`TooManyItemsInOneRequest` when `19 + 12 N` exceeds the negotiated PDU
length, else with `ResponseDataWouldBeTooLarge` (carrying the computed
response size and the PDU length) when `14 + Σ len_i + 4 N` exceeds it; in
both cases nothing is sent (sent count 0).  When both budgets hold, exactly
one request PDU carrying one item per access is exchanged — multi reads are
never split. -/
theorem claim_C6_multi_read_budgets (pdu_length : Nat) (info : List S7ReadAccess)
    (response : Except Error (List (Except Error (List Nat)))) :
    (19 + 12 * info.length > pdu_length →
      read_area_multi_run pdu_length .dataBlock info response =
        (0, .error .tooManyItemsInOneRequest))
    ∧ (19 + 12 * info.length ≤ pdu_length →
       14 + ((info.map (fun item => S7ReadAccess.len item)).sum + 4 * info.length)
           > pdu_length →
       read_area_multi_run pdu_length .dataBlock info response =
         (0, .error (.responseDataWouldBeTooLarge
            (14 + ((info.map (fun item => S7ReadAccess.len item)).sum + 4 * info.length))
            pdu_length)))
    ∧ ((∀ a ∈ info, S7ReadAccess.len a < 2 ^ 16) →
       19 + 12 * info.length ≤ pdu_length →
       14 + ((info.map (fun item => S7ReadAccess.len item)).sum + 4 * info.length)
           ≤ pdu_length →
       ∃ items, read_area_multi_request pdu_length .dataBlock info = .ok items
         ∧ items.length = info.length
         ∧ read_area_multi_run pdu_length .dataBlock info response = (1, response)) := by
  have hcalc : calculate_response_size info =
      14 + ((info.map (fun item => S7ReadAccess.len item)).sum + 4 * info.length) := by
    simp only [calculate_response_size, DataItem.header_len]
    omega
  refine ⟨?_, ?_, ?_⟩
  · intro h
    have hreq : 19 + info.length * RequestItem.wire_len > pdu_length := by
      simp only [RequestItem.wire_len]
      omega
    simp only [read_area_multi_run, read_area_multi_request,
      assert_pdu_size_for_read, if_pos hreq]
    rfl
  · intro h1 h2
    have hreq : ¬ 19 + info.length * RequestItem.wire_len > pdu_length := by
      simp only [RequestItem.wire_len]
      omega
    have hresp : calculate_response_size info > pdu_length := by omega
    simp only [read_area_multi_run, read_area_multi_request,
      assert_pdu_size_for_read, if_neg hreq, if_pos hresp]
    rw [hcalc]
    rfl
  · intro hlen h1 h2
    have hreq : ¬ 19 + info.length * RequestItem.wire_len > pdu_length := by
      simp only [RequestItem.wire_len]
      omega
    have hresp : ¬ calculate_response_size info > pdu_length := by omega
    obtain ⟨l, hl, hllen⟩ := mapM_request_item_ok Area.dataBlock hlen
    refine ⟨l, ?_, hllen, ?_⟩
    · simp only [read_area_multi_request, assert_pdu_size_for_read,
        if_neg hreq, if_neg hresp]
      exact hl
    · simp only [read_area_multi_run, read_area_multi_request,
        assert_pdu_size_for_read, if_neg hreq, if_neg hresp, hl]
      rfl

/-- Witness for C6: with `pdu_length = 40` and two byte accesses the
request budget `19 + 24 = 43` is blown and nothing is sent; with
`pdu_length = 50` and one 40-byte access the response budget
`14 + 40 + 4 = 58` is blown and the error carries `(58, 50)`; with
`pdu_length = 100` the same access goes out as one PDU with one item. -/
theorem claim_C6_multi_read_budgets_witness :
    read_area_multi_run 40 .dataBlock
        [.bytes 1 0 10, .bytes 2 0 10] (.ok []) =
      (0, .error .tooManyItemsInOneRequest)
    ∧ read_area_multi_run 50 .dataBlock [.bytes 1 0 40] (.ok []) =
      (0, .error (.responseDataWouldBeTooLarge 58 50))
    ∧ (∃ items, read_area_multi_request 100 .dataBlock [.bytes 1 0 40] = .ok items
        ∧ items.length = 1
        ∧ read_area_multi_run 100 .dataBlock [.bytes 1 0 40] (.ok []) = (1, .ok [])) :=
  ⟨(claim_C6_multi_read_budgets 40 [.bytes 1 0 10, .bytes 2 0 10] (.ok [])).1
      (by decide),
   (claim_C6_multi_read_budgets 50 [.bytes 1 0 40] (.ok [])).2.1
      (by decide) (by decide),
   (claim_C6_multi_read_budgets 100 [.bytes 1 0 40] (.ok [])).2.2
      (by decide) (by decide) (by decide)⟩

/-- Running the receive loop over non-final fragments (`eot_num = 0`)
followed by one final fragment (`eot_num = 0x80`) appends every tail to
the accumulator and returns at the final fragment. -/
theorem recv_buffer_loop_frags (mid : List (List Nat)) (last_tail : List Nat) :
    ∀ acc, recv_buffer_loop acc (mid.map (mk_frag 0) ++ [mk_frag 0x80 last_tail]) =
      .ok (acc ++ (mid.flatten ++ last_tail)) := by
  induction mid with
  | nil =>
    intro acc
    rfl
  | cons t ts ih =>
    intro acc
    have step : recv_buffer_loop acc
        (mk_frag 0 t :: (ts.map (mk_frag 0) ++ [mk_frag 0x80 last_tail])) =
        recv_buffer_loop (acc ++ t) (ts.map (mk_frag 0) ++ [mk_frag 0x80 last_tail]) := rfl
    simp only [List.map_cons, List.cons_append, step, ih (acc ++ t), List.flatten_cons,
      List.append_assoc]

/-- C5 counterexample: `eot_num = 0x81` has bit 7 set, yet the receive
loop does not treat such a fragment as final — `is_last` tests equality
with `0x80` — so a single fragment with `eot_num = 0x81` leaves the loop
still waiting for more records, and its tail is merged with the following
fragment's. -/
theorem claim_C5_eot_counterexample :
    Nat.testBit 0x81 7 = true
    ∧ recv_buffer [mk_frag 0x81 [42]] = .starved
    ∧ recv_buffer [mk_frag 0x81 [42], mk_frag 0x80 [43]] = .ok [42, 43] := by
  refine ⟨by decide, by decide, by decide⟩

/-- C5 (amended): the receive loop keeps reading TPKT records, appending
each record's payload after the 3-byte COTP data header, until a fragment
whose `eot_num` *equals* `0x80` (EOT bit set, PDU number 0) arrives; for a
response split into `K` fragments with EOT set only on the last, the
reassembled byte sequence is the concatenation of the `K` fragment tails —
identical to the payload of the equivalent single-fragment encoding. -/
theorem claim_C5_cotp_reassembly (tails : List (List Nat)) (last_tail : List Nat) :
    recv_buffer (tails.map (mk_frag 0) ++ [mk_frag 0x80 last_tail]) =
      .ok (tails.flatten ++ last_tail)
    ∧ recv_buffer [mk_frag 0x80 (tails.flatten ++ last_tail)] =
      .ok (tails.flatten ++ last_tail) := by
  constructor
  · have h := recv_buffer_loop_frags tails last_tail []
    simpa [recv_buffer] using h
  · rfl

/-- Ceiling division via floor division: `(L + m - 1) / m` adds one to
`L / m` exactly when the division leaves a remainder. -/
theorem ceil_div_eq (L m : Nat) (hm : 0 < m) :
    (L + m - 1) / m = L / m + (if L % m = 0 then 0 else 1) := by
  have h1 : L + m - 1 = m * (L / m) + (L % m + m - 1) := by
    have h0 := Nat.div_add_mod L m
    omega
  rw [h1, Nat.mul_add_div hm]
  by_cases h : L % m = 0
  · rw [h]
    simp [Nat.div_eq_of_lt (by omega : m - 1 < m)]
  · have hrm : L % m < m := Nat.mod_lt _ hm
    have h2 : L % m + m - 1 = (L % m - 1) + m := by omega
    rw [h2, Nat.add_div_right _ hm, Nat.div_eq_of_lt (by omega : L % m - 1 < m)]
    simp [h]

/-- Dispatching a responder over a list of sub-accesses: if every
sub-access yields exactly the requested number of bytes, the whole run
succeeds and the concatenated payload carries the sum of the requested
lengths. -/
theorem mapM_responder_ok (f : S7ReadAccess → Except Error (List Nat)) :
    ∀ items : List S7ReadAccess,
      (∀ a ∈ items, ∃ v, f a = .ok v ∧ v.length = S7ReadAccess.len a) →
      ∃ ws, items.mapM f = .ok ws
        ∧ ws.flatten.length = (items.map (fun a => S7ReadAccess.len a)).sum := by
  intro items
  induction items with
  | nil => exact fun _ => ⟨[], rfl, rfl⟩
  | cons a rest ih =>
    intro h
    obtain ⟨v, hv, hvl⟩ := h a (List.mem_cons_self a rest)
    obtain ⟨ws, hws, hwsl⟩ := ih (fun x hx => h x (List.mem_cons_of_mem _ hx))
    refine ⟨v :: ws, ?_, ?_⟩
    · rw [List.mapM_cons, hv, hws]
      rfl
    · simp [List.flatten_cons, hvl, hwsl]

/-- The split performed by `read_area_single` on a byte read of length `L`
against a negotiated PDU length `P` with `L + 18 > P`: `L / (P - 18)` full
chunks of `P - 18` bytes at consecutive starts, followed by a remainder
chunk when the division is not exact. -/
theorem read_area_single_items_split (P L start db : Nat)
    (hP : 18 < P) (hP16 : P < 2 ^ 16) (hL : L < 2 ^ 16) (hsplit : P < L + 18)
    (hstart : start + L ≤ 2 ^ 32) :
    read_area_single_items P (.bytes db start L) =
      (List.range (L / (P - 18))).map
        (fun i => S7ReadAccess.bytes db (start + i * (P - 18)) (P - 18))
      ++ (if L % (P - 18) = 0 then []
          else [S7ReadAccess.bytes db (start + L / (P - 18) * (P - 18))
                  (L % (P - 18))]) := by
  have hm : 0 < P - 18 := by omega
  have hresp : calculate_response_size [S7ReadAccess.bytes db start L] = L + 18 := by
    simp only [calculate_response_size, List.map_cons, List.map_nil,
      S7ReadAccess.len, List.sum_cons, List.sum_nil, List.length_cons,
      List.length_nil, DataItem.header_len]
    omega
  have h16 : (P - 18) % 2 ^ 16 = P - 18 := Nat.mod_eq_of_lt (by omega)
  simp only [read_area_single_items, hresp, S7ReadAccess.len,
    S7ReadAccess.db_number, S7ReadAccess.start, S7ProtocolHeader.len_response,
    ReadWriteParams.len, DataItem.header_len]
  rw [if_pos (by omega : L + 18 > P)]
  have e1 : P - 12 - 2 - 4 = P - 18 := by omega
  rw [e1, h16]
  have hmap : (List.range (L / (P - 18))).map
      (fun i => S7ReadAccess.bytes db ((i * (P - 18) % 2 ^ 32 + start) % 2 ^ 32) (P - 18)) =
      (List.range (L / (P - 18))).map
      (fun i => S7ReadAccess.bytes db (start + i * (P - 18)) (P - 18)) := by
    apply List.map_congr_left
    intro i hi
    have hi' : i < L / (P - 18) := List.mem_range.mp hi
    have h2 : (i + 1) * (P - 18) ≤ L / (P - 18) * (P - 18) :=
      Nat.mul_le_mul_right _ (by omega)
    have h3 := Nat.div_mul_le_self L (P - 18)
    have hexp : (i + 1) * (P - 18) = i * (P - 18) + (P - 18) := by ring
    have hil : i * (P - 18) < L := by omega
    congr 1
    generalize i * (P - 18) = x at hil ⊢
    omega
  by_cases hr : L % (P - 18) = 0
  · rw [if_neg (by omega : ¬ L % (P - 18) > 0), if_pos hr, List.append_nil, hmap]
  · rw [if_pos (by omega : L % (P - 18) > 0), if_neg hr, hmap]
    have hql : L / (P - 18) * (P - 18) < L := by
      have h4 := Nat.div_add_mod' L (P - 18)
      omega
    have h16r : L % (P - 18) % 2 ^ 16 = L % (P - 18) :=
      Nat.mod_eq_of_lt (by have := Nat.mod_lt L hm; omega)
    rw [h16r]
    congr 3
    generalize L / (P - 18) * (P - 18) = x at hql ⊢
    omega

/-- The chunk lengths of a range-mapped list of byte accesses with a fixed
length are that length, replicated. -/
theorem map_len_of_chunks (db len0 : Nat) (g : Nat → Nat) (q : Nat) :
    ((List.range q).map (fun i => S7ReadAccess.bytes db (g i) len0)).map
        (fun a => S7ReadAccess.len a) = List.replicate q len0 := by
  rw [List.map_map]
  have h : ((fun a => S7ReadAccess.len a) ∘ fun i => S7ReadAccess.bytes db (g i) len0)
      = fun _ => len0 := rfl
  rw [h, List.map_const', List.length_range]

/-- The chunk starts of a range-mapped list of byte accesses are the
mapped start function. -/
theorem map_start_of_chunks (db len0 : Nat) (g : Nat → Nat) (q : Nat) :
    ((List.range q).map (fun i => S7ReadAccess.bytes db (g i) len0)).map
        (fun a => S7ReadAccess.start a) = (List.range q).map g := by
  rw [List.map_map]
  rfl

/-- C1: a single-area byte read of length `L` on a session with negotiated
PDU length `P` where `L + 18 > P` is sliced into `⌈L / (P - 18)⌉` Bytes
sub-accesses with consecutive starts `start + i (P - 18)`, each of length
`P - 18` except a final remainder chunk when the division is not exact;
the sub-requests are dispatched sequentially and the decoded payloads
concatenated in request order, so a successful call returns exactly `L`
bytes when each per-chunk response carries the requested number of bytes. -/
theorem claim_C1_single_read_split (P L start db : Nat)
    (hP : 18 < P) (hP16 : P < 2 ^ 16) (hL : L < 2 ^ 16) (hsplit : P < L + 18)
    (hstart : start + L ≤ 2 ^ 32) :
    (read_area_single_items P (.bytes db start L)).length
        = (L + (P - 18) - 1) / (P - 18)
    ∧ (read_area_single_items P (.bytes db start L)).map
          (fun a => S7ReadAccess.start a)
        = (List.range (read_area_single_items P (.bytes db start L)).length).map
            (fun i => start + i * (P - 18))
    ∧ (read_area_single_items P (.bytes db start L)).map
          (fun a => S7ReadAccess.len a)
        = List.replicate ((read_area_single_items P (.bytes db start L)).length - 1)
            (P - 18)
          ++ [if L % (P - 18) = 0 then P - 18 else L % (P - 18)]
    ∧ ((read_area_single_items P (.bytes db start L)).map
          (fun a => S7ReadAccess.len a)).sum = L
    ∧ (∀ responder : S7ReadAccess → Except Error (List Nat),
        (∀ a ∈ read_area_single_items P (.bytes db start L),
          ∃ v, responder a = .ok v ∧ v.length = S7ReadAccess.len a) →
        ∃ w, read_area_single_run P (.bytes db start L) responder = .ok w
          ∧ w.length = L) := by
  have hm : 0 < P - 18 := by omega
  have hq1 : 1 ≤ L / (P - 18) := (Nat.one_le_div_iff hm).mpr (by omega)
  have hchar := read_area_single_items_split P L start db hP hP16 hL hsplit hstart
  by_cases hr : L % (P - 18) = 0
  · have hlen : (read_area_single_items P (.bytes db start L)).length
        = L / (P - 18) := by
      rw [hchar]
      simp [hr]
    have hLqm : L / (P - 18) * (P - 18) = L :=
      Nat.div_mul_cancel (Nat.dvd_of_mod_eq_zero hr)
    have hsum : ((read_area_single_items P (.bytes db start L)).map
        (fun a => S7ReadAccess.len a)).sum = L := by
      rw [hchar, if_pos hr, List.append_nil,
        map_len_of_chunks db (P - 18) (fun i => start + i * (P - 18)) (L / (P - 18)),
        List.sum_const_nat]
      exact hLqm
    refine ⟨?_, ?_, ?_, hsum, ?_⟩
    · rw [hlen, ceil_div_eq L (P - 18) hm, if_pos hr]
      omega
    · rw [hlen, hchar, if_pos hr, List.append_nil,
        map_start_of_chunks db (P - 18) (fun i => start + i * (P - 18)) (L / (P - 18))]
    · rw [hlen, hchar, if_pos hr, List.append_nil,
        map_len_of_chunks db (P - 18) (fun i => start + i * (P - 18)) (L / (P - 18)),
        if_pos hr]
      obtain ⟨q', hq'⟩ : ∃ q', L / (P - 18) = q' + 1 := ⟨L / (P - 18) - 1, by omega⟩
      rw [hq']
      exact List.replicate_succ' q' (P - 18)
    · intro responder hresp
      obtain ⟨ws, hws, hwsl⟩ := mapM_responder_ok responder _ hresp
      refine ⟨ws.flatten, ?_, ?_⟩
      · simp only [read_area_single_run, hws]
        rfl
      · rw [hwsl]
        exact hsum
  · have hlen : (read_area_single_items P (.bytes db start L)).length
        = L / (P - 18) + 1 := by
      rw [hchar]
      simp [hr]
    have hqm := Nat.div_add_mod' L (P - 18)
    have hsum : ((read_area_single_items P (.bytes db start L)).map
        (fun a => S7ReadAccess.len a)).sum = L := by
      rw [hchar, if_neg hr, List.map_append,
        map_len_of_chunks db (P - 18) (fun i => start + i * (P - 18)) (L / (P - 18))]
      simp only [List.map_cons, List.map_nil, S7ReadAccess.len, List.sum_append,
        List.sum_cons, List.sum_nil, List.sum_const_nat]
      omega
    refine ⟨?_, ?_, ?_, hsum, ?_⟩
    · rw [hlen, ceil_div_eq L (P - 18) hm, if_neg hr]
    · rw [hlen, hchar, if_neg hr, List.map_append,
        map_start_of_chunks db (P - 18) (fun i => start + i * (P - 18)) (L / (P - 18)),
        List.range_succ, List.map_append]
      simp [S7ReadAccess.start]
    · rw [hlen, hchar, if_neg hr, List.map_append,
        map_len_of_chunks db (P - 18) (fun i => start + i * (P - 18)) (L / (P - 18))]
      simp [hr, S7ReadAccess.len]
    · intro responder hresp
      obtain ⟨ws, hws, hwsl⟩ := mapM_responder_ok responder _ hresp
      refine ⟨ws.flatten, ?_, ?_⟩
      · simp only [read_area_single_run, hws]
        rfl
      · rw [hwsl]
        exact hsum

/-- Witness for C1 with `P = 30`, `L = 20` (`L + 18 > P`): the read is
sliced into `⌈20 / 12⌉ = 2` chunks, and a responder returning the
requested number of bytes per chunk yields exactly 20 bytes. -/
theorem claim_C1_single_read_split_witness :
    (read_area_single_items 30 (.bytes 1 0 20)).length = (20 + (30 - 18) - 1) / (30 - 18)
    ∧ (∃ w, read_area_single_run 30 (.bytes 1 0 20)
          (fun a => .ok (List.replicate (S7ReadAccess.len a) 0)) = .ok w
        ∧ w.length = 20) :=
  ⟨(claim_C1_single_read_split 30 20 0 1 (by decide) (by decide) (by decide)
      (by decide) (by decide)).1,
   (claim_C1_single_read_split 30 20 0 1 (by decide) (by decide) (by decide)
      (by decide) (by decide)).2.2.2.2
     (fun a => .ok (List.replicate (S7ReadAccess.len a) 0))
     (fun a _ => ⟨List.replicate (S7ReadAccess.len a) 0, rfl, List.length_replicate _ _⟩)⟩

end S7
